import Mathlib

/-!
Verification of the resilient communication and state-synchronization layer of
the QB browser-extension client: the CloudEvent envelope codec, the retrying
HTTP client, the persistent reactive store, and the storage-quota monitor.

The definitions below are shallow embeddings of the TypeScript sources
(`cloudEvent.ts`, `network.ts`, the persistent-store utility and the quota
monitor).  Untyped JavaScript values are modelled by `JsValue`; JavaScript
truthiness, `typeof`-checks, property lookup and the `||`-default idiom are
modelled explicitly.  Nondeterministic inputs of the code (random source,
wall-clock time, the network) are passed in as explicit parameters.
-/

/-- Model of an untyped JavaScript value as produced by `JSON.parse`:
`null`, booleans, numbers, strings, arrays and plain objects (association
lists in insertion order, as `Object.keys` enumerates them).  `undefined`
is modelled by `Option.none` wherever the code can observe it. -/
inductive JsValue where
  | null
  | bool (b : Bool)
  | num (n : Int)
  | str (s : String)
  | arr (elems : List JsValue)
  | obj (fields : List (String × JsValue))

/-- JavaScript truthiness of a value (`NaN` and `-0` are not modelled;
numbers are integral as produced by the protocol). -/
def truthy : JsValue → Bool
  | .null => false
  | .bool b => b
  | .num n => n != 0
  | .str s => s != ""
  | .arr _ => true
  | .obj _ => true

/-- Whether `typeof v === 'object'` holds for a truthy `v` — i.e. `v` is an
array or a plain object.  (`typeof null` is also `'object'`, but every
guard in the source first rejects falsy values, which covers `null`.) -/
def isObjLike : JsValue → Bool
  | .arr _ => true
  | .obj _ => true
  | _ => false

/-- Property read `v[k]`: `some` the stored value for plain objects,
`none` (i.e. `undefined`) otherwise.  Named properties of arrays and
primitives are never populated by `JSON.parse`. -/
def objField : JsValue → String → Option JsValue
  | .obj fields, k => fields.lookup k
  | _, _ => none

/-- The `x || d` JavaScript default idiom applied to a possibly-`undefined`
property read: keep `x` when it is present and truthy, otherwise `d`. -/
def jsOrOpt (v : Option JsValue) (d : JsValue) : JsValue :=
  match v with
  | some x => if truthy x then x else d
  | none => d

/-- Optional chaining `x?.k` where `x` is a possibly-`undefined` value:
`undefined` when `x` is `undefined` or `null`, otherwise the property read. -/
def chainField (v : Option JsValue) (k : String) : Option JsValue :=
  match v with
  | none => none
  | some .null => none
  | some x => objField x k

/-- `Object.keys`-style enumeration of the own enumerable properties of a
value together with their values: the fields of an object in insertion
order, index keys for an array, nothing for primitives. -/
def objEntries : JsValue → List (String × JsValue)
  | .obj fields => fields
  | .arr elems => elems.enum.map (fun p => (toString p.fst, p.snd))
  | _ => []

/-- Property read through `v[k]` which additionally applies the source's
recurring guard `if (!x || typeof x !== 'object')`: the result is kept
only when present, truthy and object-like. -/
def objLikeField (v : JsValue) (k : String) : Option JsValue :=
  match objField v k with
  | none => none
  | some x => if truthy x && isObjLike x then some x else none

/-! ## CloudEvent codec (`cloudEvent.ts`) -/

/-- CloudEvent metadata fields (`CloudEventMeta`).  The implementation
copies the raw values with a compile-time-only `as string` cast, so the
fields are arbitrary `JsValue`s at runtime. -/
structure CloudEventMeta where
  specversion : JsValue
  id : JsValue
  source : JsValue
  type : JsValue
  time : JsValue
  datacontenttype : Option JsValue
  dataschema : Option JsValue

/-- QBXML response attributes (`QbxmlResponseAttributes`). -/
structure QbxmlResponseAttributes where
  requestID : JsValue
  statusCode : JsValue
  statusMessage : JsValue
  statusSeverity : JsValue

/-- A display-name/list-id reference pair (`TermsRef` / `VendorRef`). -/
structure RefPair where
  FullName : JsValue
  ListID : JsValue

/-- Transaction details extracted from a QBXML response
(`TransactionDetails`). -/
structure TransactionDetails where
  IsPaid : JsValue
  OpenAmount : JsValue
  RefNumber : JsValue
  TimeCreated : JsValue
  TimeModified : JsValue
  TxnDate : JsValue
  TxnID : JsValue
  TxnNumber : JsValue
  TermsRef : RefPair
  VendorRef : RefPair

/-- Decoded CloudEvent response (`DecodedCloudEvent`): metadata plus the
two optional extractions.  Note that the raw `data` payload is not a field
of this structure. -/
structure DecodedCloudEvent where
  meta : CloudEventMeta
  responseAttributes : Option QbxmlResponseAttributes
  transactionDetails : Option TransactionDetails

/-- The fixed UUID v4 template used by `generateEventId`:
`xxxxxxxx-xxxx-4xxx-yxxx-xxxxxxxxxxxx`. -/
def uuidTemplate : String := "xxxxxxxx-xxxx-4xxx-yxxx-xxxxxxxxxxxx"

/-- Lower-case hexadecimal digit character for `n < 16`, as produced by
`Number.prototype.toString(16)`. -/
def hexChar (n : Nat) : Char :=
  if n < 10 then Char.ofNat (48 + n) else Char.ofNat (87 + n)

/-- Template-filling loop of `generateEventId`'s fallback implementation:
each `x` is replaced by a random hex digit `r`, each `y` by
`(r & 0x3) | 0x8`; `i` counts the random draws.  `rand i % 16` models
`(Math.random() * 16) | 0`, which is uniform over `0..15`. -/
def fillTemplate (rand : Nat → Nat) : List Char → Nat → List Char
  | [], _ => []
  | c :: cs, i =>
    if c = 'x' then hexChar (rand i % 16) :: fillTemplate rand cs (i + 1)
    else if c = 'y' then hexChar (rand i % 16 % 4 + 8) :: fillTemplate rand cs (i + 1)
    else c :: fillTemplate rand cs i

/-- `generateEventId`, parametrised by the random source.  This embeds the
repository's own fallback generator; the `crypto.randomUUID()` fast path
delegates to the host, which is specified (RFC 4122) to produce strings of
the same 36-character v4 shape. -/
def generateEventId (rand : Nat → Nat) : String :=
  String.mk (fillTemplate rand uuidTemplate.toList 0)

/-- Lower-case hexadecimal digit predicate (the `[0-9a-f]` character class
of the UUID v4 regex in the test suite). -/
def isHexDigitChar (c : Char) : Bool :=
  ('0' ≤ c && c ≤ '9') || ('a' ≤ c && c ≤ 'f')

/-- One position of the fixed 36-character UUID pattern: `x` admits any hex
digit, `y` admits the variant nibble `8/9/a/b`, and every other template
character (the hyphens and the version nibble `4`) must match exactly. -/
def patCharOk (p c : Char) : Bool :=
  if p = 'x' then isHexDigitChar c
  else if p = 'y' then c = '8' || c = '9' || c = 'a' || c = 'b'
  else c = p

/-- Pointwise match of a character list against a pattern list. -/
def matchesPat : List Char → List Char → Bool
  | [], [] => true
  | p :: ps, c :: cs => patCharOk p c && matchesPat ps cs
  | _, _ => false

/-- The fixed 36-character UUID v4 pattern of the specification and of the
test-suite regex `^[0-9a-f]{8}-[0-9a-f]{4}-4[0-9a-f]{3}-[89ab][0-9a-f]{3}-[0-9a-f]{12}$`. -/
def matchesUuidV4 (s : String) : Bool :=
  s.toList.length == 36 && matchesPat uuidTemplate.toList s.toList

/-- `encodeCloudEvent(type, source, data)`, with the two nondeterministic
ingredients — the random source behind `generateEventId()` and the
timestamp `new Date().toISOString()` — passed in explicitly.  Fields are
listed in the source's insertion order. -/
def encodeCloudEvent (type source : String) (data : JsValue)
    (rand : Nat → Nat) (time : String) : JsValue :=
  .obj [("specversion", .str "1.0"),
        ("id", .str (generateEventId rand)),
        ("source", .str source),
        ("type", .str type),
        ("time", .str time),
        ("datacontenttype", .str "application/json"),
        ("data", data)]

/-- Whether the first list is an initial segment of the second
(computable by structural recursion). -/
def beginsWithList : List Char → List Char → Bool
  | [], _ => true
  | _ :: _, [] => false
  | p :: ps, c :: cs => p = c && beginsWithList ps cs

/-- JavaScript `s.startsWith(pre)`. -/
def beginsWith (pre s : String) : Bool :=
  beginsWithList pre.toList s.toList

/-- JavaScript `s.endsWith(suf)`. -/
def endsWithStr (suf s : String) : Bool :=
  beginsWithList suf.toList.reverse s.toList.reverse

/-- The navigation prefix `data.QBXML.QBXMLMsgsRs` shared verbatim by
`extractResponseAttributes` and `extractTransactionDetails`, with the
source's recurring `!x || typeof x !== 'object'` guard at every level;
`none` models a failed navigation (which makes both extractions `null`). -/
def navMsgsRs (data : Option JsValue) : Option JsValue :=
  match data with
  | none => none
  | some d =>
    if !(truthy d && isObjLike d) then none
    else
      match objLikeField d "QBXML" with
      | none => none
      | some qbxml => objLikeField qbxml "QBXMLMsgsRs"

/-- `extractResponseAttributes(data)`: navigate
`data.QBXML.QBXMLMsgsRs.[first key not starting with '@']` and read the
four `@`-attributes with `|| 'N/A'` defaults; `none` models the `null`
result on any failed navigation step.  The argument is the (possibly
`undefined`) `data` property of the envelope.  The guard
`if (!responseKey) return null` fires both when no key is found and when
the found key is the falsy empty string, so a container stored under the
key `""` is treated as absent. -/
def extractResponseAttributes (data : Option JsValue) : Option QbxmlResponseAttributes :=
  match navMsgsRs data with
  | none => none
  | some msgsRs =>
          match (objEntries msgsRs).find? (fun kv => !(beginsWith "@" kv.fst)) with
          | none => none
          | some kv =>
            if kv.fst = "" then none
            else
            let specificResponse := kv.snd
            if !(truthy specificResponse && isObjLike specificResponse) then none
            else
              some { requestID := jsOrOpt (objField specificResponse "@requestID")
                        (jsOrOpt (objField msgsRs "@requestID") (.str "N/A")),
                     statusCode := jsOrOpt (objField specificResponse "@statusCode") (.str "N/A"),
                     statusMessage := jsOrOpt (objField specificResponse "@statusMessage") (.str "N/A"),
                     statusSeverity := jsOrOpt (objField specificResponse "@statusSeverity") (.str "N/A") }

/-- Whether `typeof v === 'object'` holds, including the `null` case
(used by `extractTransactionDetails` when selecting the response key). -/
def typeofObject : JsValue → Bool
  | .null => true
  | .arr _ => true
  | .obj _ => true
  | _ => false

/-- `extractTransactionDetails(data)`: navigate the same
`data.QBXML.QBXMLMsgsRs` prefix, pick the first non-`@` key whose value has
`typeof 'object'`, then the first non-`@` key ending in `Ret`; a non-empty
array of return objects is unwrapped to its first element; business fields
get `'false'`/`'0.00'`/`''` defaults.  Both `if (!txnResponseKey)` and
`if (!retKey)` also fire for a falsy empty-string key (the latter check is
vacuous for a found key, which necessarily ends in `Ret`). -/
def extractTransactionDetails (data : Option JsValue) : Option TransactionDetails :=
  match navMsgsRs data with
  | none => none
  | some msgsRs =>
          match (objEntries msgsRs).find?
              (fun kv => !(beginsWith "@" kv.fst) && typeofObject kv.snd) with
          | none => none
          | some kv =>
            if kv.fst = "" then none
            else
            let txnResponse := kv.snd
            if !(truthy txnResponse && isObjLike txnResponse) then none
            else
              match (objEntries txnResponse).find?
                  (fun kv2 => !(beginsWith "@" kv2.fst) && endsWithStr "Ret" kv2.fst) with
              | none => none
              | some kvRet =>
                if kvRet.fst = "" then none
                else
                let td := match kvRet.snd with
                  | .arr (x :: _) => x
                  | v => v
                match td with
                | .obj tdFields =>
                  some { IsPaid := jsOrOpt (tdFields.lookup "IsPaid") (.str "false"),
                         OpenAmount := jsOrOpt (tdFields.lookup "OpenAmount") (.str "0.00"),
                         RefNumber := jsOrOpt (tdFields.lookup "RefNumber") (.str ""),
                         TimeCreated := jsOrOpt (tdFields.lookup "TimeCreated") (.str ""),
                         TimeModified := jsOrOpt (tdFields.lookup "TimeModified") (.str ""),
                         TxnDate := jsOrOpt (tdFields.lookup "TxnDate") (.str ""),
                         TxnID := jsOrOpt (tdFields.lookup "TxnID") (.str ""),
                         TxnNumber := jsOrOpt (tdFields.lookup "TxnNumber") (.str ""),
                         TermsRef := { FullName := jsOrOpt (chainField (tdFields.lookup "TermsRef") "FullName") (.str ""),
                                       ListID := jsOrOpt (chainField (tdFields.lookup "TermsRef") "ListID") (.str "") },
                         VendorRef := { FullName := jsOrOpt (chainField (tdFields.lookup "VendorRef") "FullName") (.str ""),
                                        ListID := jsOrOpt (chainField (tdFields.lookup "VendorRef") "ListID") (.str "") } }
                | _ => none

/-- The five required CloudEvent metadata fields, in the order the decoder
checks them. -/
def requiredFields : List String := ["specversion", "id", "source", "type", "time"]

/-- `decodeCloudEvent(rawPayload)`: hard-fails (models `throw`) when the
payload is falsy or not `typeof 'object'`, or when any of the five
required metadata fields is `undefined`; otherwise builds the decoded
view.  Array payloads pass the `typeof` guard but have no named fields,
so they fail on the first required field, exactly as in JavaScript. -/
def decodeCloudEvent (raw : JsValue) : Except String DecodedCloudEvent :=
  if !(truthy raw && isObjLike raw) then
    .error "Invalid CloudEvent: payload must be an object"
  else
    match objField raw "specversion" with
    | none => .error "Invalid CloudEvent: missing required field specversion"
    | some sv =>
      match objField raw "id" with
      | none => .error "Invalid CloudEvent: missing required field id"
      | some idv =>
        match objField raw "source" with
        | none => .error "Invalid CloudEvent: missing required field source"
        | some srcv =>
          match objField raw "type" with
          | none => .error "Invalid CloudEvent: missing required field type"
          | some tyv =>
            match objField raw "time" with
            | none => .error "Invalid CloudEvent: missing required field time"
            | some tmv =>
              .ok { meta := { specversion := sv, id := idv, source := srcv,
                              type := tyv, time := tmv,
                              datacontenttype := objField raw "datacontenttype",
                              dataschema := objField raw "dataschema" },
                    responseAttributes := extractResponseAttributes (objField raw "data"),
                    transactionDetails := extractTransactionDetails (objField raw "data") }

example : decodeCloudEvent (encodeCloudEvent "t" "s" .null (fun _ => 0) "T") =
    .ok { meta := { specversion := .str "1.0",
                    id := .str (generateEventId (fun _ => 0)),
                    source := .str "s", type := .str "t", time := .str "T",
                    datacontenttype := some (.str "application/json"),
                    dataschema := none },
          responseAttributes := none, transactionDetails := none } := by
  rfl

example : matchesUuidV4 (generateEventId (fun i => i * 7)) = true := by decide

/-! ## Lemmas about the generated identifier -/

lemma hexChar_isHex (n : Nat) (h : n < 16) : isHexDigitChar (hexChar n) = true := by
  interval_cases n <;> decide

lemma patCharOk_variant (n : Nat) (h : n < 4) : patCharOk 'y' (hexChar (n + 8)) = true := by
  interval_cases n <;> decide

lemma fillTemplate_length (rand : Nat → Nat) :
    ∀ (ts : List Char) (i : Nat), (fillTemplate rand ts i).length = ts.length := by
  intro ts
  induction ts with
  | nil => intro i; rfl
  | cons c cs ih =>
    intro i
    by_cases hx : c = 'x'
    · simp [fillTemplate, hx, ih]
    · by_cases hy : c = 'y'
      · simp [fillTemplate, hx, hy, ih]
      · simp [fillTemplate, hx, hy, ih]

lemma fillTemplate_matches (rand : Nat → Nat) :
    ∀ (ts : List Char) (i : Nat), matchesPat ts (fillTemplate rand ts i) = true := by
  intro ts
  induction ts with
  | nil => intro i; rfl
  | cons c cs ih =>
    intro i
    by_cases hx : c = 'x'
    · subst hx
      simp only [fillTemplate, if_pos rfl, matchesPat, Bool.and_eq_true]
      refine ⟨?_, ih (i + 1)⟩
      simpa [patCharOk] using hexChar_isHex (rand i % 16) (Nat.mod_lt _ (by norm_num))
    · by_cases hy : c = 'y'
      · subst hy
        simp only [fillTemplate, if_neg (by decide : ¬('y' = 'x')), if_pos rfl,
          matchesPat, Bool.and_eq_true]
        refine ⟨?_, ih (i + 1)⟩
        exact patCharOk_variant (rand i % 16 % 4) (Nat.mod_lt _ (by norm_num))
      · simp only [fillTemplate, if_neg hx, if_neg hy, matchesPat, Bool.and_eq_true]
        exact ⟨by simp [patCharOk, hx, hy], ih i⟩

lemma matchesUuidV4_generateEventId (rand : Nat → Nat) :
    matchesUuidV4 (generateEventId rand) = true := by
  have h3 : (generateEventId rand).toList = fillTemplate rand uuidTemplate.toList 0 := rfl
  unfold matchesUuidV4
  rw [h3, fillTemplate_length, fillTemplate_matches]
  rfl

/-- Claim C1, counterexample: as stated, the claim requires
`decode(encode(type, source, payload))` to recover the payload.  The
Decoded Response has no payload field, and two encodings of distinct
payloads (with the same random source and timestamp) decode to the very
same Decoded Response, so no function of the decoded value can recover the
payload. -/
theorem decode_encode_payload_not_recovered :
    decodeCloudEvent (encodeCloudEvent "t" "s" (JsValue.str "A")
        (fun _ => 0) "2025-01-01T00:00:00.000Z")
      = decodeCloudEvent (encodeCloudEvent "t" "s" (JsValue.str "B")
        (fun _ => 0) "2025-01-01T00:00:00.000Z")
    ∧ JsValue.str "A" ≠ JsValue.str "B" := by
  refine ⟨rfl, ?_⟩
  intro h
  injection h with h2
  exact absurd h2 (by decide)

/-- Claim C1, amended: for every event type, source string, payload,
random source and timestamp, decoding the envelope produced by
`encodeCloudEvent` succeeds; the metadata `type` and `source` equal the
inputs, `specversion` is `"1.0"`, and the identifier matches the fixed
36-character UUID v4 pattern (version nibble `4`, variant nibble in
`{8,9,a,b}`).  The decoded view carries the two deterministic extractions
of the payload — not the payload itself, which `DecodedCloudEvent` does
not retain. -/
theorem decode_encode_roundtrip_amended (ty src : String) (payload : JsValue)
    (rand : Nat → Nat) (time : String) :
    decodeCloudEvent (encodeCloudEvent ty src payload rand time) =
      .ok { meta := { specversion := .str "1.0", id := .str (generateEventId rand),
                      source := .str src, type := .str ty, time := .str time,
                      datacontenttype := some (.str "application/json"),
                      dataschema := none },
            responseAttributes := extractResponseAttributes (some payload),
            transactionDetails := extractTransactionDetails (some payload) }
    ∧ matchesUuidV4 (generateEventId rand) = true :=
  ⟨rfl, matchesUuidV4_generateEventId rand⟩

/-! ## Structural errors and tolerance of `decodeCloudEvent` -/

/-- Whether a value is a keyed structure (a plain object). -/
def isKeyedStructure : JsValue → Bool
  | .obj _ => true
  | _ => false

/-- Whether the (possibly `undefined`) `data` payload lacks the nested
protocol structures: the navigation `data.QBXML.QBXMLMsgsRs` — shared
prefix of both extraction functions — fails at some step (absent field,
falsy value, or a value that is not `typeof 'object'`). -/
def lacksProtocolStructures (data : Option JsValue) : Bool :=
  (navMsgsRs data).isNone

lemma extractResponseAttributes_none_of_lacks (data : Option JsValue)
    (h : lacksProtocolStructures data = true) :
    extractResponseAttributes data = none := by
  unfold lacksProtocolStructures at h
  cases hn : navMsgsRs data with
  | none => simp [extractResponseAttributes, hn]
  | some msgsRs => rw [hn] at h; simp at h

lemma extractTransactionDetails_none_of_lacks (data : Option JsValue)
    (h : lacksProtocolStructures data = true) :
    extractTransactionDetails data = none := by
  unfold lacksProtocolStructures at h
  cases hn : navMsgsRs data with
  | none => simp [extractTransactionDetails, hn]
  | some msgsRs => rw [hn] at h; simp at h

/-- Claim C2: `decodeCloudEvent` throws a structural error whenever the raw
value is not a keyed structure, or whenever any of the five required
metadata fields (`specversion`, `id`, `source`, `type`, `time`) is absent;
and every input carrying all five fields whose payload lacks the nested
protocol structures decodes successfully with `responseAttributes = none`
and `transactionDetails = none`. -/
theorem decodeCloudEvent_required_fields_and_tolerance :
    (∀ v : JsValue, isKeyedStructure v = false →
       ∃ msg, decodeCloudEvent v = .error msg) ∧
    (∀ fields : List (String × JsValue),
       (∃ f ∈ requiredFields, fields.lookup f = none) →
       ∃ msg, decodeCloudEvent (.obj fields) = .error msg) ∧
    (∀ fields : List (String × JsValue),
       (∀ f ∈ requiredFields, (fields.lookup f).isSome = true) →
       lacksProtocolStructures (fields.lookup "data") = true →
       ∃ d, decodeCloudEvent (.obj fields) = .ok d ∧
         d.responseAttributes = none ∧ d.transactionDetails = none) := by
  refine ⟨?_, ?_, ?_⟩
  · intro v hv
    match v with
    | .null => exact ⟨_, rfl⟩
    | .bool b =>
      exact ⟨"Invalid CloudEvent: payload must be an object",
        by cases b <;> simp [decodeCloudEvent, truthy, isObjLike]⟩
    | .num n =>
      exact ⟨"Invalid CloudEvent: payload must be an object",
        by simp [decodeCloudEvent, truthy, isObjLike]⟩
    | .str s =>
      exact ⟨"Invalid CloudEvent: payload must be an object",
        by simp [decodeCloudEvent, truthy, isObjLike]⟩
    | .arr es =>
      exact ⟨"Invalid CloudEvent: missing required field specversion",
        by simp [decodeCloudEvent, truthy, isObjLike, objField]⟩
    | .obj fs => simp [isKeyedStructure] at hv
  · intro fields hf
    cases h1 : fields.lookup "specversion" with
    | none =>
      exact ⟨"Invalid CloudEvent: missing required field specversion",
        by simp [decodeCloudEvent, objField, truthy, isObjLike, h1]⟩
    | some sv =>
      cases h2 : fields.lookup "id" with
      | none =>
        exact ⟨"Invalid CloudEvent: missing required field id",
          by simp [decodeCloudEvent, objField, truthy, isObjLike, h1, h2]⟩
      | some idv =>
        cases h3 : fields.lookup "source" with
        | none =>
          exact ⟨"Invalid CloudEvent: missing required field source",
            by simp [decodeCloudEvent, objField, truthy, isObjLike, h1, h2, h3]⟩
        | some srcv =>
          cases h4 : fields.lookup "type" with
          | none =>
            exact ⟨"Invalid CloudEvent: missing required field type",
              by simp [decodeCloudEvent, objField, truthy, isObjLike, h1, h2, h3, h4]⟩
          | some tyv =>
            cases h5 : fields.lookup "time" with
            | none =>
              exact ⟨"Invalid CloudEvent: missing required field time",
                by simp [decodeCloudEvent, objField, truthy, isObjLike, h1, h2, h3, h4, h5]⟩
            | some tmv =>
              exfalso
              obtain ⟨f, hfmem, hfnone⟩ := hf
              simp only [requiredFields, List.mem_cons, List.not_mem_nil, or_false] at hfmem
              rcases hfmem with rfl | rfl | rfl | rfl | rfl <;>
                simp_all
  · intro fields hall hlacks
    obtain ⟨sv, h1⟩ := Option.isSome_iff_exists.mp (hall "specversion" (by simp [requiredFields]))
    obtain ⟨idv, h2⟩ := Option.isSome_iff_exists.mp (hall "id" (by simp [requiredFields]))
    obtain ⟨srcv, h3⟩ := Option.isSome_iff_exists.mp (hall "source" (by simp [requiredFields]))
    obtain ⟨tyv, h4⟩ := Option.isSome_iff_exists.mp (hall "type" (by simp [requiredFields]))
    obtain ⟨tmv, h5⟩ := Option.isSome_iff_exists.mp (hall "time" (by simp [requiredFields]))
    refine ⟨{ meta := { specversion := sv, id := idv, source := srcv, type := tyv, time := tmv,
                        datacontenttype := fields.lookup "datacontenttype",
                        dataschema := fields.lookup "dataschema" },
              responseAttributes := extractResponseAttributes (fields.lookup "data"),
              transactionDetails := extractTransactionDetails (fields.lookup "data") },
            ?_, ?_, ?_⟩
    · simp [decodeCloudEvent, objField, truthy, isObjLike, h1, h2, h3, h4, h5]
    · simpa using extractResponseAttributes_none_of_lacks _ hlacks
    · simpa using extractTransactionDetails_none_of_lacks _ hlacks

/-- Witness for claim C2: a string payload is rejected; an object missing
`source` is rejected; an object with all five metadata fields and a
payload without the protocol structures decodes with both extractions
`none`. -/
theorem decodeCloudEvent_required_fields_and_tolerance_witness :
    (∃ msg, decodeCloudEvent (.str "nope") = .error msg) ∧
    (∃ msg, decodeCloudEvent
        (.obj [("specversion", .str "1.0"), ("id", .str "x")]) = .error msg) ∧
    (∃ d, decodeCloudEvent
        (.obj [("specversion", .str "1.0"), ("id", .str "x"), ("source", .str "s"),
               ("type", .str "t"), ("time", .str "T"),
               ("data", .obj [("someOtherData", .str "test")])]) = .ok d ∧
      d.responseAttributes = none ∧ d.transactionDetails = none) :=
  ⟨decodeCloudEvent_required_fields_and_tolerance.1 (.str "nope") rfl,
   decodeCloudEvent_required_fields_and_tolerance.2.1 _
     ⟨"source", by simp [requiredFields], rfl⟩,
   decodeCloudEvent_required_fields_and_tolerance.2.2 _
     (by decide) (by decide)⟩

/-! ## Resilient request client (`network.ts`) -/

/-- Outcome of one `fetch` call, as an oracle supplied per attempt:
the promise rejects (e.g. `TypeError: fetch failed`), it rejects with an
`AbortError` because the per-attempt timeout fired, or a response arrives.
For a response, `ok` models `response.ok` (true exactly for 2xx), `body`
is the text read from it, and `parsed` models the outcome of the external
`JSON.parse(body)` (`none` = a `SyntaxError` was thrown). -/
inductive FetchResult where
  | reject (msg : String)
  | abort
  | response (ok : Bool) (status : Nat) (statusText : String) (body : String)
      (parsed : Option JsValue)

/-- The five error classes thrown by `postCloudEvent`: `NetworkError`,
`TimeoutError`, `HTTPError` (status, statusText, responseBody), `QBError`
(statusMessage, statusCode, statusSeverity — kept as the raw values the
code puts into the error), `ParseError`. -/
inductive NetErr where
  | network (msg : String)
  | timeout (timeoutMs : Nat)
  | http (status : Nat) (statusText : String) (responseBody : String)
  | qb (statusMessage statusCode statusSeverity : JsValue)
  | parse (msg : String)

/-- JavaScript strict equality `v === s` against a string literal: true
exactly when `v` is that string. -/
def jsStrictEqStr (v : JsValue) (s : String) : Bool :=
  match v with
  | .str t => t == s
  | _ => false

/-- `calculateBackoff(attempt)` = `Math.pow(2, attempt - 1) * 1000`
(1000 ms, 2000 ms, 4000 ms, ...). -/
def calculateBackoff (attempt : Nat) : Nat :=
  2 ^ (attempt - 1) * 1000

/-- `isRetryableError(error)`: only `NetworkError` and `TimeoutError` are
retryable; `HTTPError`, `QBError` and `ParseError` are not.  (The source
also retries a bare `TypeError` mentioning `fetch`, but the inner handler
has already wrapped every such rejection into a `NetworkError` before the
retry decision, so that clause is unreachable here.) -/
def isRetryableError : NetErr → Bool
  | .network _ => true
  | .timeout _ => true
  | _ => false

/-- One attempt of the `try`-block of `postCloudEvent`: classify the fetch
outcome.  An `AbortError` becomes `TimeoutError(timeout)`; any other
rejection becomes `NetworkError` with the wrapped message; a non-ok
response becomes `HTTPError`; an unparseable body or a failing
`decodeCloudEvent` becomes `ParseError`; a decoded response whose
`responseAttributes` are present with `statusCode !== '0'` becomes
`QBError`; otherwise the decoded response is returned. -/
def attemptOnce (timeoutMs : Nat) (fr : FetchResult) :
    Except NetErr DecodedCloudEvent :=
  match fr with
  | .abort => .error (.timeout timeoutMs)
  | .reject msg => .error (.network ("Network request failed: " ++ msg))
  | .response ok status statusText body parsed =>
    if !ok then .error (.http status statusText body)
    else
      match parsed with
      | none => .error (.parse "Failed to parse JSON response")
      | some raw =>
        match decodeCloudEvent raw with
        | .error _ => .error (.parse "Failed to decode CloudEvent response")
        | .ok decoded =>
          match decoded.responseAttributes with
          | some attrs =>
            if !(jsStrictEqStr attrs.statusCode "0") then
              .error (.qb attrs.statusMessage attrs.statusCode attrs.statusSeverity)
            else .ok decoded
          | none => .ok decoded

/-- Observable result of a `postCloudEvent` call: the terminal outcome,
the number of transport attempts performed, and the list of backoff
delays slept between consecutive attempts (in order). -/
structure PostResult where
  outcome : Except NetErr DecodedCloudEvent
  attempts : Nat
  sleeps : List Nat

/-- The `while (retryState.attempt < retryState.maxRetries)` loop of
`postCloudEvent`, with `fuel = maxRetries - attempt` and the network as
an oracle from (1-indexed) attempt number to fetch outcome.  A retryable
error on a non-final attempt sleeps `calculateBackoff(attempt)` and loops;
a non-retryable error, or a retryable error on the final attempt, is
thrown; exhausting the loop without entering it (maxRetries = 0) throws
the fallback `NetworkError`. -/
def postLoop (timeoutMs : Nat) (oracle : Nat → FetchResult) :
    Nat → Nat → PostResult
  | 0, attempt =>
    { outcome := .error (.network "Request failed after all retries"),
      attempts := attempt, sleeps := [] }
  | fuel + 1, attempt =>
    let a := attempt + 1
    match attemptOnce timeoutMs (oracle a) with
    | .ok d => { outcome := .ok d, attempts := a, sleeps := [] }
    | .error e =>
      if isRetryableError e = false then
        { outcome := .error e, attempts := a, sleeps := [] }
      else if fuel = 0 then
        { outcome := .error e, attempts := a, sleeps := [] }
      else
        let r := postLoop timeoutMs oracle fuel a
        { outcome := r.outcome, attempts := r.attempts,
          sleeps := calculateBackoff a :: r.sleeps }

/-- `postCloudEvent(url, cloudEvent, options)` with `timeout` and
`retries` (maximum attempts) taken from the options and the transport as
an oracle; the envelope itself does not influence control flow. -/
def postCloudEvent (timeoutMs maxRetries : Nat) (oracle : Nat → FetchResult) :
    PostResult :=
  postLoop timeoutMs oracle maxRetries 0

example :
    (postCloudEvent 5000 3 (fun _ => .reject "fetch failed")).attempts = 3 ∧
    (postCloudEvent 5000 3 (fun _ => .reject "fetch failed")).sleeps = [1000, 2000] := by
  constructor <;> rfl

lemma postLoop_allNetwork (timeoutMs : Nat) (msg : Nat → String) :
    ∀ (fuel a : Nat), 1 ≤ fuel →
    postLoop timeoutMs (fun k => .reject (msg k)) fuel a =
      { outcome := .error (.network ("Network request failed: " ++ msg (a + fuel))),
        attempts := a + fuel,
        sleeps := (List.range (fuel - 1)).map (fun k => calculateBackoff (a + k + 1)) } := by
  intro fuel
  induction fuel with
  | zero => intro a h; exact absurd h (by omega)
  | succ f ih =>
    intro a _
    cases f with
    | zero => rfl
    | succ f2 =>
      have hstep : postLoop timeoutMs (fun k => .reject (msg k)) (f2 + 1 + 1) a =
          { outcome := (postLoop timeoutMs (fun k => .reject (msg k)) (f2 + 1) (a + 1)).outcome,
            attempts := (postLoop timeoutMs (fun k => .reject (msg k)) (f2 + 1) (a + 1)).attempts,
            sleeps := calculateBackoff (a + 1) ::
              (postLoop timeoutMs (fun k => .reject (msg k)) (f2 + 1) (a + 1)).sleeps } := rfl
      rw [hstep, ih (a + 1) (by omega)]
      simp only [PostResult.mk.injEq]
      refine ⟨?_, by omega, ?_⟩
      · have h1 : a + 1 + (f2 + 1) = a + (f2 + 1 + 1) := by omega
        rw [h1]
      · have h2 : f2 + 1 + 1 - 1 = f2 + 1 := rfl
        rw [h2, List.range_succ_eq_map]
        simp only [List.map_cons, List.map_map]
        refine List.cons_eq_cons.mpr ⟨by norm_num, ?_⟩
        have h3 : f2 + 1 - 1 = f2 := rfl
        rw [h3]
        apply List.map_congr_left
        intro k _
        simp only [Function.comp_apply]
        exact congrArg calculateBackoff (by omega)

/-- Claim C3: for every configured maximum number of attempts `n ≥ 1`, a
`postCloudEvent` call whose transport rejects with a connection error on
every attempt performs exactly `n` transport attempts, sleeps
`2^(k-1) * 1000` ms between attempt `k` and attempt `k+1`
(1000, 2000, 4000 ms, ...), and terminates by throwing the `NetworkError`
wrapping the last attempt's failure. -/
theorem postCloudEvent_network_failure_exhausts_attempts
    (timeoutMs n : Nat) (hn : 1 ≤ n) (msg : Nat → String) :
    postCloudEvent timeoutMs n (fun k => .reject (msg k)) =
      { outcome := .error (.network ("Network request failed: " ++ msg n)),
        attempts := n,
        sleeps := (List.range (n - 1)).map (fun k => 2 ^ k * 1000) } := by
  have h := postLoop_allNetwork timeoutMs msg n 0 hn
  unfold postCloudEvent
  rw [h]
  simp only [Nat.zero_add]
  refine congrArg (fun y => PostResult.mk _ n y) ?_
  apply List.map_congr_left
  intro k _
  simp [calculateBackoff]

/-- Witness for claim C3: three attempts against an always-failing
transport, sleeping 1000 ms and then 2000 ms, ending in the wrapped
`NetworkError`. -/
theorem postCloudEvent_network_failure_exhausts_attempts_witness :
    1 ≤ 3 ∧
    postCloudEvent 5000 3 (fun _ => .reject "fetch failed") =
      { outcome := .error (.network "Network request failed: fetch failed"),
        attempts := 3, sleeps := [1000, 2000] } :=
  ⟨by decide,
   (postCloudEvent_network_failure_exhausts_attempts 5000 3 (by decide)
      (fun _ => "fetch failed")).trans (by rfl)⟩

lemma postLoop_nonretryable_first (timeoutMs : Nat) (oracle : Nat → FetchResult)
    (e : NetErr) (he : isRetryableError e = false) :
    ∀ (fuel a : Nat), 1 ≤ fuel → attemptOnce timeoutMs (oracle (a + 1)) = .error e →
    postLoop timeoutMs oracle fuel a =
      { outcome := .error e, attempts := a + 1, sleeps := [] } := by
  intro fuel a hfuel hatt
  cases fuel with
  | zero => exact absurd hfuel (by omega)
  | succ f =>
    simp only [postLoop]
    rw [hatt]
    simp [he]

lemma postLoop_reach (timeoutMs : Nat) (oracle : Nat → FetchResult) :
    ∀ (d a fuel : Nat), d + 1 ≤ fuel →
    (∀ j, a < j → j ≤ a + d →
      ∃ ej, attemptOnce timeoutMs (oracle j) = .error ej ∧ isRetryableError ej = true) →
    (postLoop timeoutMs oracle fuel a).outcome
        = (postLoop timeoutMs oracle (fuel - d) (a + d)).outcome ∧
    (postLoop timeoutMs oracle fuel a).attempts
        = (postLoop timeoutMs oracle (fuel - d) (a + d)).attempts := by
  intro d
  induction d with
  | zero => intro a fuel _ _; simp
  | succ d2 ih =>
    intro a fuel hf hprev
    cases fuel with
    | zero => exact absurd hf (by omega)
    | succ f =>
      obtain ⟨e1, he1, hr1⟩ := hprev (a + 1) (by omega) (by omega)
      have hf0 : f ≠ 0 := by omega
      have hstep : postLoop timeoutMs oracle (f + 1) a =
          { outcome := (postLoop timeoutMs oracle f (a + 1)).outcome,
            attempts := (postLoop timeoutMs oracle f (a + 1)).attempts,
            sleeps := calculateBackoff (a + 1) ::
              (postLoop timeoutMs oracle f (a + 1)).sleeps } := by
        simp only [postLoop]
        rw [he1]
        simp [hr1, hf0]
      have hih := ih (a + 1) f (by omega) (fun j hj1 hj2 => hprev j (by omega) (by omega))
      have harith1 : f - d2 = f + 1 - (d2 + 1) := by omega
      have harith2 : a + 1 + d2 = a + (d2 + 1) := by omega
      rw [harith1, harith2] at hih
      rw [hstep]
      exact hih

/-- Claim C4: whenever an attempt of `postCloudEvent` ends in a
Transport-Status (HTTP) classification, a Parse classification, or a
Protocol (QB) classification — any non-retryable error — no further
attempt is made and that error is thrown immediately, regardless of how
many configured attempts remain.  The hypothesis `hprev` states that all
earlier attempts failed with retryable errors, so attempt `k` is indeed
reached. -/
theorem postCloudEvent_nonretryable_stops_immediately
    (timeoutMs n k : Nat) (oracle : Nat → FetchResult) (e : NetErr)
    (hk : 1 ≤ k) (hkn : k ≤ n)
    (hprev : ∀ j, 1 ≤ j → j < k →
      ∃ ej, attemptOnce timeoutMs (oracle j) = .error ej ∧ isRetryableError ej = true)
    (hke : attemptOnce timeoutMs (oracle k) = .error e)
    (he : isRetryableError e = false) :
    (postCloudEvent timeoutMs n oracle).outcome = .error e ∧
    (postCloudEvent timeoutMs n oracle).attempts = k := by
  have hreach := postLoop_reach timeoutMs oracle (k - 1) 0 n (by omega)
    (fun j hj1 hj2 => hprev j (by omega) (by omega))
  have hke2 : attemptOnce timeoutMs (oracle (k - 1 + 1)) = .error e := by
    have hk1 : k - 1 + 1 = k := by omega
    rw [hk1]; exact hke
  have hfin := postLoop_nonretryable_first timeoutMs oracle e he (n - (k - 1)) (k - 1)
    (by omega) hke2
  rw [Nat.zero_add] at hreach
  unfold postCloudEvent
  refine ⟨?_, ?_⟩
  · rw [hreach.1, hfin]
  · rw [hreach.2, hfin]
    show k - 1 + 1 = k
    omega

/-- Witness for claim C4: a 404 response on the first attempt terminates
`postCloudEvent` after exactly one transport attempt with the `HTTPError`
carrying status 404, even though two more attempts were configured. -/
theorem postCloudEvent_nonretryable_stops_immediately_witness :
    (postCloudEvent 5000 3
        (fun _ => .response false 404 "Not Found" "Resource not found" none)).outcome
      = .error (.http 404 "Not Found" "Resource not found") ∧
    (postCloudEvent 5000 3
        (fun _ => .response false 404 "Not Found" "Resource not found" none)).attempts = 1 :=
  postCloudEvent_nonretryable_stops_immediately 5000 3 1 _ _ (by decide) (by decide)
    (fun j h1 h2 => absurd h2 (by omega)) rfl rfl

/-- Claim C5: if the first transport attempt returns a 2xx response whose
body parses and decodes successfully and the decoded Response Status is
present with a status code that is not the string `"0"`, then
`postCloudEvent` throws the `QBError` carrying that status code and
severity after exactly one attempt, regardless of the configured maximum
attempts. -/
theorem postCloudEvent_protocol_error_single_attempt
    (timeoutMs n : Nat) (hn : 1 ≤ n) (oracle : Nat → FetchResult)
    (status : Nat) (statusText body : String) (v : JsValue)
    (d : DecodedCloudEvent) (attrs : QbxmlResponseAttributes)
    (h1 : oracle 1 = .response true status statusText body (some v))
    (h2 : decodeCloudEvent v = .ok d)
    (h3 : d.responseAttributes = some attrs)
    (h4 : jsStrictEqStr attrs.statusCode "0" = false) :
    postCloudEvent timeoutMs n oracle =
      { outcome := .error (.qb attrs.statusMessage attrs.statusCode attrs.statusSeverity),
        attempts := 1, sleeps := [] } := by
  have hatt : attemptOnce timeoutMs (oracle 1)
      = .error (.qb attrs.statusMessage attrs.statusCode attrs.statusSeverity) := by
    rw [h1]
    simp [attemptOnce, h2, h3, h4]
  cases n with
  | zero => exact absurd hn (by omega)
  | succ m =>
    have hfin := postLoop_nonretryable_first timeoutMs oracle
      (.qb attrs.statusMessage attrs.statusCode attrs.statusSeverity) rfl
      (m + 1) 0 (by omega) hatt
    exact hfin

/-- Concrete QB error response envelope (statusCode `"3100"`), as in the
test fixtures. -/
def qbErrorEnvelope : JsValue :=
  .obj [("specversion", .str "1.0"), ("id", .str "error-id"),
        ("source", .str "qb-backend"),
        ("type", .str "com.quickbooks.bill.add.response"),
        ("time", .str "2025-11-09T12:00:01.000Z"),
        ("datacontenttype", .str "application/json"),
        ("data", .obj [("QBXML", .obj [("QBXMLMsgsRs", .obj [("BillAddRs",
            .obj [("@statusCode", .str "3100"), ("@statusSeverity", .str "Error"),
                  ("@statusMessage", .str "Vendor already exists")])])])])]

/-- Witness for claim C5: a decoded response carrying status code `"3100"`
terminates `postCloudEvent` after exactly one attempt with the `QBError`,
although five attempts were configured. -/
theorem postCloudEvent_protocol_error_single_attempt_witness :
    1 ≤ 5 ∧
    postCloudEvent 5000 5 (fun _ => .response true 200 "OK" "body" (some qbErrorEnvelope)) =
      { outcome := .error (.qb (.str "Vendor already exists") (.str "3100") (.str "Error")),
        attempts := 1, sleeps := [] } :=
  ⟨by decide,
   postCloudEvent_protocol_error_single_attempt 5000 5 (by decide) _ 200 "OK" "body"
     qbErrorEnvelope
     { meta := { specversion := .str "1.0", id := .str "error-id",
                 source := .str "qb-backend",
                 type := .str "com.quickbooks.bill.add.response",
                 time := .str "2025-11-09T12:00:01.000Z",
                 datacontenttype := some (.str "application/json"), dataschema := none },
       responseAttributes := some { requestID := .str "N/A", statusCode := .str "3100",
                                    statusMessage := .str "Vendor already exists",
                                    statusSeverity := .str "Error" },
       transactionDetails := none }
     { requestID := .str "N/A", statusCode := .str "3100",
       statusMessage := .str "Vendor already exists", statusSeverity := .str "Error" }
     (by rfl) (by rfl) (by rfl) (by rfl)⟩

/-- Claim C10: if a 2xx response decodes successfully and the nested
response container (the first non-`@` key under `QBXMLMsgsRs`, a truthy
key — the source's `if (!responseKey) return null` treats a falsy
empty-string key as no container at all) is present as an object whose
`@statusCode` attribute is missing, then the extracted Response Status
defaults that field to `"N/A"`; `"N/A"` differs from `"0"`, so
`postCloudEvent` classifies the exchange as a `QBError` with status code
`"N/A"` after one attempt rather than returning it as a success. -/
theorem postCloudEvent_missing_statusCode_is_qb_error
    (timeoutMs n : Nat) (hn : 1 ≤ n) (oracle : Nat → FetchResult)
    (status : Nat) (statusText body : String)
    (sv idv srcv tyv tmv : JsValue)
    (msgsRsFields respFields : List (String × JsValue)) (respKey : String)
    (hkey : respKey ≠ "")
    (hfind : msgsRsFields.find? (fun kv => !(beginsWith "@" kv.fst))
        = some (respKey, .obj respFields))
    (hmissing : respFields.lookup "@statusCode" = none)
    (henv : oracle 1 = .response true status statusText body (some (.obj
        [("specversion", sv), ("id", idv), ("source", srcv), ("type", tyv), ("time", tmv),
         ("data", .obj [("QBXML", .obj [("QBXMLMsgsRs", .obj msgsRsFields)])])]))) :
    ∃ attrs : QbxmlResponseAttributes,
      extractResponseAttributes
          (some (.obj [("QBXML", .obj [("QBXMLMsgsRs", .obj msgsRsFields)])]))
        = some attrs ∧
      attrs.statusCode = .str "N/A" ∧
      (postCloudEvent timeoutMs n oracle).outcome
        = .error (.qb attrs.statusMessage attrs.statusCode attrs.statusSeverity) ∧
      (postCloudEvent timeoutMs n oracle).attempts = 1 := by
  have hnav : navMsgsRs
      (some (.obj [("QBXML", .obj [("QBXMLMsgsRs", .obj msgsRsFields)])]))
      = some (.obj msgsRsFields) := rfl
  have hex : extractResponseAttributes
      (some (.obj [("QBXML", .obj [("QBXMLMsgsRs", .obj msgsRsFields)])]))
      = some { requestID := jsOrOpt (respFields.lookup "@requestID")
                  (jsOrOpt (msgsRsFields.lookup "@requestID") (.str "N/A")),
               statusCode := .str "N/A",
               statusMessage := jsOrOpt (respFields.lookup "@statusMessage") (.str "N/A"),
               statusSeverity := jsOrOpt (respFields.lookup "@statusSeverity") (.str "N/A") } := by
    simp only [extractResponseAttributes, hnav, objEntries]
    rw [hfind]
    simp [hkey, truthy, isObjLike, objField, hmissing, jsOrOpt]
  have hdec : decodeCloudEvent (.obj
      [("specversion", sv), ("id", idv), ("source", srcv), ("type", tyv), ("time", tmv),
       ("data", .obj [("QBXML", .obj [("QBXMLMsgsRs", .obj msgsRsFields)])])])
      = .ok { meta := { specversion := sv, id := idv, source := srcv, type := tyv,
                        time := tmv, datacontenttype := none, dataschema := none },
              responseAttributes := extractResponseAttributes
                (some (.obj [("QBXML", .obj [("QBXMLMsgsRs", .obj msgsRsFields)])])),
              transactionDetails := extractTransactionDetails
                (some (.obj [("QBXML", .obj [("QBXMLMsgsRs", .obj msgsRsFields)])])) } := rfl
  refine ⟨_, hex, rfl, ?_⟩
  have hatt : attemptOnce timeoutMs (oracle 1)
      = .error (.qb (jsOrOpt (respFields.lookup "@statusMessage") (.str "N/A"))
          (.str "N/A")
          (jsOrOpt (respFields.lookup "@statusSeverity") (.str "N/A"))) := by
    rw [henv]
    simp only [attemptOnce, Bool.not_true, Bool.false_eq_true, if_false, hdec, hex]
    rfl
  cases n with
  | zero => exact absurd hn (by omega)
  | succ m =>
    have hfin := postLoop_nonretryable_first timeoutMs oracle
      (.qb (jsOrOpt (respFields.lookup "@statusMessage") (.str "N/A")) (.str "N/A")
        (jsOrOpt (respFields.lookup "@statusSeverity") (.str "N/A")))
      rfl (m + 1) 0 (by omega) hatt
    unfold postCloudEvent
    rw [hfin]
    exact ⟨rfl, rfl⟩

/-- The `data` payload of a response whose container lacks `@statusCode`. -/
def missingStatusData : JsValue :=
  .obj [("QBXML", .obj [("QBXMLMsgsRs",
    .obj [("BillAddRs", .obj [("@statusMessage", .str "ok-ish")])])])]

/-- A well-formed envelope carrying `missingStatusData`. -/
def missingStatusEnvelope : JsValue :=
  .obj [("specversion", .str "1.0"), ("id", .str "i"), ("source", .str "s"),
        ("type", .str "t"), ("time", .str "T"), ("data", missingStatusData)]

/-- Witness for claim C10: a response container without `@statusCode`
yields a `QBError` with code `"N/A"` on the first of three attempts. -/
theorem postCloudEvent_missing_statusCode_is_qb_error_witness :
    ∃ attrs : QbxmlResponseAttributes,
      extractResponseAttributes (some missingStatusData) = some attrs ∧
      attrs.statusCode = .str "N/A" ∧
      (postCloudEvent 5000 3
          (fun _ => .response true 200 "OK" "body" (some missingStatusEnvelope))).outcome
        = .error (.qb attrs.statusMessage attrs.statusCode attrs.statusSeverity) ∧
      (postCloudEvent 5000 3
          (fun _ => .response true 200 "OK" "body" (some missingStatusEnvelope))).attempts = 1 :=
  postCloudEvent_missing_statusCode_is_qb_error 5000 3 (by decide) _ 200 "OK" "body"
    (.str "1.0") (.str "i") (.str "s") (.str "t") (.str "T")
    [("BillAddRs", .obj [("@statusMessage", .str "ok-ish")])]
    [("@statusMessage", .str "ok-ish")] "BillAddRs" (by decide) (by rfl) (by rfl) (by rfl)

/-! ## Storage quota monitor (`storage quota` module) -/

/-- `QUOTA_LIMITS.local` = 5 MB. -/
def QUOTA_LIMITS_local : Nat := 5242880

/-- `QUOTA_LIMITS.sync` = 100 KB. -/
def QUOTA_LIMITS_sync : Nat := 102400

/-- `THRESHOLDS.ok` (the constant is documented as the start of the
warning band but is never consulted by `checkStorageQuota`). -/
def THRESHOLDS_ok : ℚ := 80

/-- `THRESHOLDS.warning`. -/
def THRESHOLDS_warning : ℚ := 90

/-- `THRESHOLDS.critical`. -/
def THRESHOLDS_critical : ℚ := 95

/-- Severity band of a quota snapshot. -/
inductive QuotaStatus where
  | ok
  | warning
  | critical
deriving DecidableEq

/-- `StorageQuota` snapshot.  `percentUsed` is modelled as an exact
rational; the JavaScript double arithmetic agrees with it away from
representation boundaries. -/
structure StorageQuota where
  bytesInUse : Nat
  quota : Nat
  percentUsed : ℚ
  status : QuotaStatus

/-- `checkStorageQuota()` with the byte count reported by
`chrome.storage.local.getBytesInUse()` passed in: percent used is
`bytesInUse / quota * 100`; the code classifies `critical` at or above
`THRESHOLDS.critical` (95) and `warning` at or above `THRESHOLDS.warning`
(90), everything else `ok` — note that it never consults
`THRESHOLDS.ok` (80). -/
def checkStorageQuota (bytesInUse : Nat) : StorageQuota :=
  let quota := QUOTA_LIMITS_local
  let percentUsed : ℚ := (bytesInUse : ℚ) / (quota : ℚ) * 100
  let status : QuotaStatus :=
    if percentUsed ≥ THRESHOLDS_critical then .critical
    else if percentUsed ≥ THRESHOLDS_warning then .warning
    else .ok
  { bytesInUse := bytesInUse, quota := quota, percentUsed := percentUsed,
    status := status }

/-- Claim C6 (code evaluated at the failing input): the claim's percent
formula holds, but the band classification does not.  At
`bytesInUse = 4456448` the usage is exactly 85%, which the claim (like
the code's own comments on `THRESHOLDS`, whose `ok = 80` constant is
never consulted) places in the warning band `[80, 95)`, yet
`checkStorageQuota` returns `ok` because its warning comparison uses
`THRESHOLDS.warning = 90`. -/
theorem checkStorageQuota_band_at_85_percent :
    (checkStorageQuota 4456448).percentUsed = 85 ∧
    THRESHOLDS_ok = 80 ∧ THRESHOLDS_ok ≤ 85 ∧ (85 : ℚ) < THRESHOLDS_critical ∧
    (checkStorageQuota 4456448).status = QuotaStatus.ok := by
  refine ⟨?_, rfl, ?_, ?_, ?_⟩
  · simp only [checkStorageQuota]
    norm_num [QUOTA_LIMITS_local]
  · norm_num [THRESHOLDS_ok]
  · norm_num [THRESHOLDS_critical]
  · simp only [checkStorageQuota]
    rw [if_neg (by norm_num [QUOTA_LIMITS_local, THRESHOLDS_critical]),
        if_neg (by norm_num [QUOTA_LIMITS_local, THRESHOLDS_warning])]

/-- A cached bill; only the creation timestamp (`createdAt`, the sort key
of `cleanupOldData`) and an identifier are relevant to eviction. -/
structure Bill where
  id : Nat
  createdAt : Int
deriving DecidableEq

/-- Sort order of `cleanupOldData`: ascending by creation timestamp,
mirroring the comparator `(a, b) => a.createdAt - b.createdAt`.  The
embedding sorts with the stable `insertionSort`, matching the stable
`Array.prototype.sort`. -/
def billLe (a b : Bill) : Prop := a.createdAt ≤ b.createdAt

instance : DecidableRel billLe :=
  fun a b => inferInstanceAs (Decidable (a.createdAt ≤ b.createdAt))

instance : IsTotal Bill billLe :=
  ⟨fun a b => Int.le_total a.createdAt b.createdAt⟩

instance : IsTrans Bill billLe :=
  ⟨fun _ _ _ h1 h2 => le_trans h1 h2⟩

/-- The `avgBytesPerBill` estimate:
`Math.ceil(quota.bytesInUse / sortedBills.length) || 500`.  For an empty
collection JavaScript produces `Infinity` (or `NaN`, defaulted to 500 when
`bytesInUse = 0`); in the embedding the division by zero yields `0`,
hence the 500 default — both give an eviction count of 0 because the
10-entry floor already forces `min` with 0 in that case. -/
def avgBytesPerBill (bytesInUse len : Nat) : Int :=
  if (⌈(bytesInUse : ℚ) / (len : ℚ)⌉ : Int) = 0 then 500
  else ⌈(bytesInUse : ℚ) / (len : ℚ)⌉

/-- `billsToRemove = Math.min(maxBillsToRemove, Math.ceil(bytesToFree /
avgBytesPerBill))` where `maxBillsToRemove = Math.max(0, length - 10)`
(natural subtraction) and `bytesToFree = bytesInUse -
(targetPercentage / 100) * quota` (positive in the branch where this is
used, so `Int.toNat` is faithful). -/
def billsToRemoveCount (bytesInUse : Nat) (targetPercentage : ℚ) (len : Nat) : Nat :=
  min (len - 10)
    (⌈((bytesInUse : ℚ) - targetPercentage / 100 * (QUOTA_LIMITS_local : ℚ)) /
        (avgBytesPerBill bytesInUse len : ℚ)⌉).toNat

/-- `cleanupOldData(targetPercentage)` acting on the bill cache: no-op
below (or at) the target percentage; otherwise sorts ascending by
`createdAt`, removes the computed number of oldest bills (writing the
remainder back only when that number is positive), and returns the
removed count together with the resulting cache contents. -/
def cleanupOldData (bytesInUse : Nat) (targetPercentage : ℚ)
    (bills : List Bill) : Nat × List Bill :=
  if (checkStorageQuota bytesInUse).percentUsed ≤ targetPercentage then (0, bills)
  else if 0 < billsToRemoveCount bytesInUse targetPercentage
      (List.insertionSort billLe bills).length then
    (billsToRemoveCount bytesInUse targetPercentage (List.insertionSort billLe bills).length,
     (List.insertionSort billLe bills).drop
       (billsToRemoveCount bytesInUse targetPercentage (List.insertionSort billLe bills).length))
  else
    (billsToRemoveCount bytesInUse targetPercentage (List.insertionSort billLe bills).length,
     bills)

/-- Claim C7: `cleanupOldData` removes nothing and returns 0 whenever the
current percent used is at most the target; otherwise it returns exactly
`min(max(size - 10, 0), ceil(bytesToFree / avgBytesPerBill))`
(`billsToRemoveCount`), removes that many entries — the oldest by
creation timestamp, every removed entry no newer than every kept one —
and at least `min(size, 10)` most-recent entries always remain. -/
theorem cleanupOldData_eviction_spec (bytesInUse : Nat) (target : ℚ)
    (bills : List Bill) :
    ((checkStorageQuota bytesInUse).percentUsed ≤ target →
      cleanupOldData bytesInUse target bills = (0, bills)) ∧
    (target < (checkStorageQuota bytesInUse).percentUsed →
      (cleanupOldData bytesInUse target bills).fst
          = billsToRemoveCount bytesInUse target bills.length ∧
      (cleanupOldData bytesInUse target bills).fst ≤ bills.length - 10 ∧
      (cleanupOldData bytesInUse target bills).snd.length
          = bills.length - (cleanupOldData bytesInUse target bills).fst ∧
      min bills.length 10 ≤ (cleanupOldData bytesInUse target bills).snd.length ∧
      ((cleanupOldData bytesInUse target bills).fst = 0 →
        (cleanupOldData bytesInUse target bills).snd = bills) ∧
      (0 < (cleanupOldData bytesInUse target bills).fst →
        (cleanupOldData bytesInUse target bills).snd
            = (List.insertionSort billLe bills).drop
                (cleanupOldData bytesInUse target bills).fst ∧
        ∀ x ∈ (List.insertionSort billLe bills).take
            (cleanupOldData bytesInUse target bills).fst,
          ∀ y ∈ (cleanupOldData bytesInUse target bills).snd,
            x.createdAt ≤ y.createdAt)) := by
  have hlen : (List.insertionSort billLe bills).length = bills.length :=
    (List.perm_insertionSort billLe bills).length_eq
  by_cases hle : (checkStorageQuota bytesInUse).percentUsed ≤ target
  · refine ⟨fun _ => ?_, fun hgt => absurd hle (not_le.mpr hgt)⟩
    unfold cleanupOldData
    rw [if_pos hle]
  · refine ⟨fun h => absurd h hle, fun _ => ?_⟩
    have hfst : (cleanupOldData bytesInUse target bills).fst
        = billsToRemoveCount bytesInUse target bills.length := by
      unfold cleanupOldData
      rw [if_neg hle, hlen]
      split <;> rfl
    have hminle : billsToRemoveCount bytesInUse target bills.length
        ≤ bills.length - 10 := by
      unfold billsToRemoveCount
      exact Nat.min_le_left _ _
    have hsnd : (cleanupOldData bytesInUse target bills).snd
        = if 0 < billsToRemoveCount bytesInUse target bills.length
          then (List.insertionSort billLe bills).drop
            (billsToRemoveCount bytesInUse target bills.length)
          else bills := by
      by_cases hpos : 0 < billsToRemoveCount bytesInUse target bills.length
      · rw [if_pos hpos]
        unfold cleanupOldData
        rw [if_neg hle, hlen, if_pos hpos]
      · rw [if_neg hpos]
        unfold cleanupOldData
        rw [if_neg hle, hlen, if_neg hpos]
    have hlen2 : (cleanupOldData bytesInUse target bills).snd.length
        = bills.length - (cleanupOldData bytesInUse target bills).fst := by
      by_cases hpos : 0 < billsToRemoveCount bytesInUse target bills.length
      · rw [hsnd, if_pos hpos, List.length_drop, hlen, hfst]
      · have h0 : billsToRemoveCount bytesInUse target bills.length = 0 := by omega
        rw [hsnd, if_neg hpos, hfst, h0, Nat.sub_zero]
    refine ⟨hfst, hfst ▸ hminle, hlen2, ?_, ?_, ?_⟩
    · have h1 := hfst ▸ hminle
      omega
    · intro h0
      rw [hsnd, if_neg (by omega : ¬ 0 < billsToRemoveCount bytesInUse target bills.length)]
    · intro hpos
      rw [hfst] at hpos
      refine ⟨by rw [hsnd, if_pos hpos, hfst], ?_⟩
      intro x hx y hy
      rw [hsnd, if_pos hpos] at hy
      rw [hfst] at hx
      exact (List.sorted_insertionSort billLe bills).rel_of_mem_take_of_mem_drop hx hy

/-- Twelve bills with increasing creation timestamps. -/
def sampleBills : List Bill :=
  (List.range 12).map (fun i => { id := i, createdAt := (i : Int) })

/-- Witness for claim C7: at 5,000,000 bytes in use (≈95.4%) and target
70%, eviction from 12 bills removes at most `12 - 10 = 2` entries; the
count is exactly 2 although the byte estimate alone asks for 4. -/
theorem cleanupOldData_eviction_spec_witness :
    (70 : ℚ) < (checkStorageQuota 5000000).percentUsed ∧
    (cleanupOldData 5000000 70 sampleBills).fst ≤ sampleBills.length - 10 ∧
    (cleanupOldData 5000000 70 sampleBills).fst = 2 := by
  have hgt : (70 : ℚ) < (checkStorageQuota 5000000).percentUsed := by
    simp only [checkStorageQuota]
    norm_num [QUOTA_LIMITS_local]
  have h := (cleanupOldData_eviction_spec 5000000 70 sampleBills).2 hgt
  refine ⟨hgt, h.2.1, ?_⟩
  rw [h.1]
  norm_num [billsToRemoveCount, avgBytesPerBill, sampleBills, QUOTA_LIMITS_local]
  have hc : (⌈(1250000 : ℚ) / 3⌉ : ℤ) = 416667 := by norm_num [Int.ceil_eq_iff]
  rw [hc]
  have h4 : (⌈(1329984 : ℚ) / ((416667 : ℤ) : ℚ)⌉ : ℤ) = 4 := by
    rw [Int.ceil_eq_iff]
    norm_num
  rw [h4]
  norm_num

/-! ## Persistent reactive store (`persistentStore`)

The store wraps a Svelte `writable`: `set` updates the in-memory value and
synchronously invokes the subscriber, which (outside suppression) writes
the value to `chrome.storage`.  The asynchronous pieces — completion of
the initial `storage.get([key])` read, `onChanged` notifications, and
third-party writes to the backing store — are modelled as events of a
single-threaded event loop, which is how the extension runtime schedules
them. -/

/-- Chrome storage namespace (`StorageType`). -/
inductive StorageType where
  | local
  | sync
deriving DecidableEq

/-- State of one persistent cell together with the parts of the world it
can observe: the in-memory value, the `isInitializing` suppression flag,
the backing store's record for the cell's key in its namespace, and the
log of outbound `storage.set` payloads issued by this cell. -/
structure CellState (α : Type) where
  value : α
  isInitializing : Bool
  backing : Option α
  writes : List α

/-- Events interleaved by the event loop: a local `set(v)`; completion of
the initial hydration read (which observes the current backing record); an
`onChanged` notification for `(area, chKey)` carrying the new value; and a
third-party write to the cell's key (which updates the backing record
only — the runtime delivers the matching notification as a separate
event). -/
inductive CellEvent (α : Type) where
  | localSet (v : α)
  | hydrate
  | notify (area : StorageType) (chKey : String) (newValue : α)
  | backingWrite (area : StorageType) (chKey : String) (v : α)

/-- `persistentStore(key, initialValue, storageType)` at creation time:
the writable holds `initialValue`, `isInitializing = true`, and the
immediate subscriber invocation is suppressed, so nothing is written. -/
def initCell {α : Type} (initialValue : α) (stored : Option α) : CellState α :=
  { value := initialValue, isInitializing := true, backing := stored, writes := [] }

/-- One event-loop step of the cell created for `(key, ns)`:
* `localSet v` — `store.set(v)`; the subscriber writes `v` outward unless
  the suppression flag is held;
* `hydrate` — the `storage.get` callback: if a record exists it is
  `store.set` while the flag is still held (so the subscriber write is
  suppressed only if the flag is still up), then the flag is cleared;
* `notify` — the `onChanged` listener: ignores other namespaces and keys;
  for the cell's key it raises the flag, sets the value, and clears the
  flag, so no outbound write occurs;
* `backingWrite` — a third party stored `v` under the key: only the backing
  record changes. -/
def stepCell {α : Type} (key : String) (ns : StorageType)
    (s : CellState α) : CellEvent α → CellState α
  | .localSet v =>
    if s.isInitializing then { s with value := v }
    else { s with value := v, backing := some v, writes := s.writes ++ [v] }
  | .hydrate =>
    match s.backing with
    | some r =>
      if s.isInitializing then
        { s with value := r, isInitializing := false }
      else
        { s with value := r, backing := some r, writes := s.writes ++ [r],
                 isInitializing := false }
    | none => { s with isInitializing := false }
  | .notify area chKey newValue =>
    if area = ns then
      if chKey = key then
        { s with value := newValue, isInitializing := false }
      else s
    else s
  | .backingWrite area chKey v =>
    if area = ns ∧ chKey = key then { s with backing := some v } else s

/-- Run a cell from its creation state through a list of events. -/
def runCell {α : Type} (key : String) (ns : StorageType)
    (s0 : CellState α) (events : List (CellEvent α)) : CellState α :=
  events.foldl (stepCell key ns) s0

/-- Claim C8, counterexample: a local `set("local")` issued after creation
but before the hydration read completes does not win the race — when the
backing store holds `"stored"`, the hydration callback overwrites the
in-memory value with `"stored"`, so the locally written value does not
remain and the hydration result is not discarded. -/
theorem persistentStore_hydration_overwrites_counterexample :
    (runCell "k" .local (initCell "init" (some "stored"))
        [.localSet "local", .hydrate]).value = "stored" ∧
    "stored" ≠ "local" :=
  ⟨rfl, by decide⟩

/-- Claim C8, amended: if a local `set(v)` occurs after creation but
before the hydration read completes, then the hydration result — not the
local value — wins whenever the external record exists (`store.set` of the
stored value, issued without any outbound write because the suppression
flag is still held); the locally written value remains only when the
external record is absent.  In either case the local write itself was
suppressed, so no outbound write at all has been issued by the cell. -/
theorem persistentStore_hydration_race_amended (α : Type) (key : String)
    (ns : StorageType) (v0 v : α) (stored : Option α) :
    (runCell key ns (initCell v0 stored) [.localSet v, .hydrate]).value
        = stored.getD v ∧
    (runCell key ns (initCell v0 stored) [.localSet v, .hydrate]).writes = [] ∧
    (runCell key ns (initCell v0 stored) [.localSet v, .hydrate]).isInitializing
        = false := by
  cases stored with
  | none => exact ⟨rfl, rfl, rfl⟩
  | some r => exact ⟨rfl, rfl, rfl⟩

/-- Claim C9: processing an external change notification for the cell's
key in its namespace sets the in-memory value to the notified new value,
and the notification alone causes no outbound write — the cell's write log
and the backing record are unchanged. -/
theorem persistentStore_notify_no_feedback (α : Type) (key : String)
    (ns : StorageType) (s : CellState α) (newValue : α) :
    (stepCell key ns s (.notify ns key newValue)).value = newValue ∧
    (stepCell key ns s (.notify ns key newValue)).writes = s.writes ∧
    (stepCell key ns s (.notify ns key newValue)).backing = s.backing := by
  simp [stepCell]
